import Mathlib

/-!
# Verification of the medical-assistant relay and workflow controller

Shallow embedding of the repository:
* `server.js` — the Express relay endpoint for the upstream LLM API
  (`app.post` on the relay route), modelled by `relayHandler` with the
  upstream fetch supplied as an oracle function.
* `src/App.jsx` — the client workflow controller, modelled as pure state
  transformers over `AppState` (`analyzeSymptoms`, `toggleSymptom`,
  `analyzeCauses`, with the relay reply supplied as an oracle).

JavaScript features used by the code are modelled explicitly: truthiness
checks on strings and numbers, `String.prototype.trim`, the greedy regex
spans `/\[[\s\S]*\]/` and the brace analogue, and `JSON.parse` (as a
recursive-descent parser over the JSON grammar; numeric literals are kept
as their source spelling since the code never inspects numeric magnitude).
Debug-log entries carry wall-clock timestamps and are observational only
(spec section 4.1: logging must not alter control flow), so the log is
omitted from the state; `alert` calls and dispatched relay fetches are
recorded as observations (`alerts`, `relayCalls`).
-/

/-! ## JSON values and a model of JSON.parse -/

/-- A JSON document. Numbers keep their literal spelling: no claim inspects
numeric magnitude, and this keeps the model total and executable. Objects
keep their fields in source order. -/
inductive Json where
  | null : Json
  | bool (b : Bool) : Json
  | num (lit : String) : Json
  | str (s : String) : Json
  | arr (elems : List Json) : Json
  | obj (fields : List (String × Json)) : Json

/-- JSON insignificant whitespace (RFC 8259): space, tab, line feed,
carriage return. -/
def isJsonWs (c : Char) : Bool :=
  c = ' ' || c = '\t' || c = '\n' || c = '\r'

/-- Drop leading JSON whitespace. -/
def skipWs : List Char → List Char
  | [] => []
  | c :: rest => if isJsonWs c then skipWs rest else c :: rest

/-- Value of a hexadecimal digit, if the character is one. -/
def hexDigit (c : Char) : Option Nat :=
  if '0' ≤ c ∧ c ≤ '9' then some (c.toNat - '0'.toNat)
  else if 'a' ≤ c ∧ c ≤ 'f' then some (c.toNat - 'a'.toNat + 10)
  else if 'A' ≤ c ∧ c ≤ 'F' then some (c.toNat - 'A'.toNat + 10)
  else none

/-- Consume an expected literal character sequence, returning the rest. -/
def eatChars : List Char → List Char → Option (List Char)
  | [], cs => some cs
  | p :: ps, c :: cs => if c = p then eatChars ps cs else none
  | _ :: _, [] => none

/-- Body of a JSON string after the opening quote: content characters and
the input remaining after the closing quote. Escapes are decoded as
ECMA-404 specifies (`\uXXXX` to the code point; surrogate pairing is not
rejoined, which no claim exercises); an unescaped control character is a
parse error. Fueled for termination; fuel at least the input length
suffices. -/
def parseStringRest : Nat → List Char → Option (List Char × List Char)
  | 0, _ => none
  | _, [] => none
  | fuel + 1, c :: rest =>
    if c = '"' then some ([], rest)
    else if c = '\\' then
      match rest with
      | [] => none
      | e :: rest2 =>
        if e = '"' ∨ e = '\\' ∨ e = '/' then
          (fun p => (e :: p.1, p.2)) <$> parseStringRest fuel rest2
        else if e = 'b' then
          (fun p => ('\x08' :: p.1, p.2)) <$> parseStringRest fuel rest2
        else if e = 'f' then
          (fun p => ('\x0c' :: p.1, p.2)) <$> parseStringRest fuel rest2
        else if e = 'n' then
          (fun p => ('\n' :: p.1, p.2)) <$> parseStringRest fuel rest2
        else if e = 'r' then
          (fun p => ('\r' :: p.1, p.2)) <$> parseStringRest fuel rest2
        else if e = 't' then
          (fun p => ('\t' :: p.1, p.2)) <$> parseStringRest fuel rest2
        else if e = 'u' then
          match rest2 with
          | h1 :: h2 :: h3 :: h4 :: rest3 =>
            match hexDigit h1, hexDigit h2, hexDigit h3, hexDigit h4 with
            | some a, some b, some c2, some d =>
              (fun p => (Char.ofNat (((a * 16 + b) * 16 + c2) * 16 + d) :: p.1, p.2)) <$>
                parseStringRest fuel rest3
            | _, _, _, _ => none
          | _ => none
        else none
    else if c.toNat < 32 then none
    else (fun p => (c :: p.1, p.2)) <$> parseStringRest fuel rest

/-- Longest run of decimal digits at the head of the input. -/
def takeDigits : List Char → List Char × List Char
  | [] => ([], [])
  | c :: rest =>
    if c.isDigit then
      let p := takeDigits rest
      (c :: p.1, p.2)
    else ([], c :: rest)

/-- Optional fraction part of a JSON number literal. -/
def parseFrac (cs : List Char) : Option (List Char × List Char) :=
  match cs with
  | '.' :: rest =>
    let p := takeDigits rest
    if p.1 = [] then none else some ('.' :: p.1, p.2)
  | _ => some ([], cs)

/-- Optional exponent part of a JSON number literal. -/
def parseExp (cs : List Char) : Option (List Char × List Char) :=
  match cs with
  | e :: rest =>
    if e = 'e' ∨ e = 'E' then
      match rest with
      | s :: rest2 =>
        if s = '+' ∨ s = '-' then
          let p := takeDigits rest2
          if p.1 = [] then none else some (e :: s :: p.1, p.2)
        else
          let p := takeDigits rest
          if p.1 = [] then none else some (e :: p.1, p.2)
      | [] => none
    else some ([], cs)
  | [] => some ([], cs)

/-- A JSON number literal (RFC 8259 grammar: optional minus, integer part
with no leading zero, optional fraction, optional exponent); returns the
literal characters and the remaining input. -/
def parseNumberLit (cs : List Char) : Option (List Char × List Char) :=
  let sp : List Char × List Char :=
    match cs with
    | '-' :: r => (['-'], r)
    | _ => ([], cs)
  match sp.2 with
  | [] => none
  | c :: rest =>
    if c = '0' then
      match parseFrac rest with
      | none => none
      | some f =>
        match parseExp f.2 with
        | none => none
        | some e => some (sp.1 ++ ['0'] ++ f.1 ++ e.1, e.2)
    else if c.isDigit then
      let d := takeDigits rest
      match parseFrac d.2 with
      | none => none
      | some f =>
        match parseExp f.2 with
        | none => none
        | some e => some (sp.1 ++ (c :: d.1) ++ f.1 ++ e.1, e.2)
    else none

/-- The opening-brace character, written by code. -/
def openBrace : Char := Char.ofNat 123

/-- The closing-brace character, written by code. -/
def closeBrace : Char := Char.ofNat 125

mutual

/-- One JSON value at the head of the input (after optional whitespace),
with the remaining input. Fueled recursive descent; each unit of fuel
spent on nesting consumes at least one input character, so fuel
`2 * length + 2` suffices for any input. -/
def parseValue : Nat → List Char → Option (Json × List Char)
  | 0, _ => none
  | fuel + 1, cs =>
    match skipWs cs with
    | [] => none
    | c :: rest =>
      if c = 'n' then (fun r => (Json.null, r)) <$> eatChars ['u', 'l', 'l'] rest
      else if c = 't' then (fun r => (Json.bool true, r)) <$> eatChars ['r', 'u', 'e'] rest
      else if c = 'f' then (fun r => (Json.bool false, r)) <$> eatChars ['a', 'l', 's', 'e'] rest
      else if c = '"' then
        (fun p => (Json.str (String.mk p.1), p.2)) <$> parseStringRest (rest.length + 1) rest
      else if c = '[' then
        match skipWs rest with
        | ']' :: r2 => some (Json.arr [], r2)
        | _ => (fun p => (Json.arr p.1, p.2)) <$> parseElems fuel rest
      else if c = openBrace then
        match skipWs rest with
        | c2 :: r2 =>
          if c2 = closeBrace then some (Json.obj [], r2)
          else (fun p => (Json.obj p.1, p.2)) <$> parseMembers fuel rest
        | [] => none
      else if c = '-' ∨ c.isDigit then
        (fun p => (Json.num (String.mk p.1), p.2)) <$> parseNumberLit (c :: rest)
      else none

/-- Comma-separated JSON values up to and including the closing bracket. -/
def parseElems : Nat → List Char → Option (List Json × List Char)
  | 0, _ => none
  | fuel + 1, cs => do
    let p ← parseValue fuel cs
    match skipWs p.2 with
    | ',' :: r2 => (fun q => (p.1 :: q.1, q.2)) <$> parseElems fuel r2
    | ']' :: r2 => some ([p.1], r2)
    | _ => none

/-- Comma-separated JSON object members up to and including the closing
brace. -/
def parseMembers : Nat → List Char → Option (List (String × Json) × List Char)
  | 0, _ => none
  | fuel + 1, cs =>
    match skipWs cs with
    | '"' :: r1 => do
      let k ← parseStringRest (r1.length + 1) r1
      match skipWs k.2 with
      | ':' :: r3 => do
        let v ← parseValue fuel r3
        match skipWs v.2 with
        | c :: r5 =>
          if c = ',' then
            (fun q => ((String.mk k.1, v.1) :: q.1, q.2)) <$> parseMembers fuel r5
          else if c = closeBrace then some ([(String.mk k.1, v.1)], r5)
          else none
        | [] => none
      | _ => none
    | _ => none

end

/-- Model of `JSON.parse`: the whole input must be a single JSON value
surrounded only by whitespace; any violation of the grammar is a
`SyntaxError`, modelled as `none`. -/
def jsonParse (s : String) : Option Json :=
  match parseValue (2 * s.toList.length + 2) s.toList with
  | some p => if skipWs p.2 = [] then some p.1 else none
  | none => none

example : jsonParse "[1]" = some (Json.arr [Json.num "1"]) := by rfl
example : jsonParse "[1] x [2]" = none := by rfl
example : jsonParse " \x7b\"a\": [true, null]\x7d " =
    some (Json.obj [("a", Json.arr [Json.bool true, Json.null])]) := by rfl
example : jsonParse "" = none := by rfl
example : jsonParse "\x7b\"symptom\":\"Low hemoglobin\"\x7d" =
    some (Json.obj [("symptom", Json.str "Low hemoglobin")]) := by rfl

/-! ## Greedy bracket and brace spans

`App.jsx` extracts JSON from a free-text model reply with
`response.match(/\[[\s\S]*\]/)` (symptom stage) and the brace analogue
(cause and solution stages). The regex is greedy: a match, when one
exists, runs from the first opening delimiter to the last closing
delimiter of the whole string, provided that closing delimiter comes
after the opener; otherwise `match` yields null. -/

/-- Index of the first occurrence of a character, if any. -/
def firstIdx (c : Char) (l : List Char) : Option Nat :=
  l.findIdx? (fun d => d = c)

/-- Index of the last occurrence of a character, if any. -/
def lastIdx (c : Char) (l : List Char) : Option Nat :=
  match l.reverse.findIdx? (fun d => d = c) with
  | some k => some (l.length - 1 - k)
  | none => none

/-- The span matched by the greedy regex from opening delimiter `o` to
closing delimiter `c`: from the first `o` to the last `c`, when the last
`c` lies after the first `o`; `none` (JS null) otherwise. -/
def greedySpan (o c : Char) (s : String) : Option String :=
  let l := s.toList
  match firstIdx o l, lastIdx c l with
  | some i, some j => if i < j then some (String.mk ((l.drop i).take (j - i + 1))) else none
  | _, _ => none

example : greedySpan '[' ']' "noise [1] x [2] tail" = some "[1] x [2]" := by rfl
example : greedySpan '[' ']' "no array here" = none := by rfl
example : greedySpan '[' ']' "] [" = none := by rfl
example : greedySpan openBrace closeBrace "a \x7b\"k\":1\x7d b" = some "\x7b\"k\":1\x7d" := by rfl

/-! ## The relay service (`server.js`)

The relay route handler destructures `apiKey, messages, system, model,
max_tokens` from the request body, rejects a falsy `apiKey` with status
400, and otherwise fetches the upstream LLM endpoint with the listed
headers and a payload applying JS `||` defaulting to `model` and
`max_tokens`. A non-ok upstream status is forwarded with the upstream
JSON body; an ok status returns the body with status 200; any exception
is answered with status 500 and a synthesized error object. The upstream
fetch is an oracle parameter of `relayHandler`; the call the handler
dispatches, if any, is recorded in the result. -/

/-- One chat message of the request body. -/
structure ChatMessage where
  role : String
  content : String
deriving DecidableEq, Repr

/-- The JSON body of a relay request, each field optional since a JS
destructuring of an absent field yields undefined (`none`). -/
structure RelayRequest where
  apiKey : Option String
  messages : Option (List ChatMessage)
  system : Option String
  model : Option String
  max_tokens : Option Int
deriving DecidableEq, Repr

/-- JS truthiness test of a possibly-undefined string: undefined and the
empty string are falsy. -/
def jsFalsyStr (s : Option String) : Bool :=
  match s with
  | none => true
  | some t => t = ""

/-- The fixed default model name of `server.js`. -/
def defaultModel : String := "claude-sonnet-4-20250514"

/-- The fetch the relay dispatches upstream: URL, the three headers, and
the JSON payload fields (a `none` field is omitted by JSON.stringify). -/
structure UpstreamCall where
  url : String
  contentType : String
  xApiKey : String
  anthropicVersion : String
  model : String
  max_tokens : Int
  system : Option String
  messages : Option (List ChatMessage)
deriving DecidableEq, Repr

/-- The upstream call built from a relay request: fixed endpoint and
headers, the credential of the caller, and the payload with JS `||`
defaulting (`model || default`, `max_tokens || 4096`; an empty string
and zero are falsy). -/
def forwardPayload (req : RelayRequest) : UpstreamCall :=
  { url := "https://api.anthropic.com/v1/messages"
    contentType := "application/json"
    xApiKey := req.apiKey.getD ""
    anthropicVersion := "2023-06-01"
    model :=
      match req.model with
      | none => defaultModel
      | some m => if m = "" then defaultModel else m
    max_tokens :=
      match req.max_tokens with
      | none => 4096
      | some n => if n = 0 then 4096 else n
    system := req.system
    messages := req.messages }

/-- What the upstream fetch does: a reply with a status and a JSON body,
or a thrown exception (network failure, non-JSON body) with a message. -/
inductive UpstreamResponse where
  | reply (status : Nat) (body : Json) : UpstreamResponse
  | exn (message : String) : UpstreamResponse

/-- The HTTP answer of the relay, together with the upstream call it
dispatched (`none`: the upstream API was never contacted). -/
structure RelayResult where
  status : Nat
  body : Json
  upstreamCall : Option UpstreamCall

/-- `response.ok` of the upstream fetch: status in the range 200–299. -/
def statusOk (s : Nat) : Bool := 200 ≤ s && s ≤ 299

/-- The relay route handler of `server.js`, with the upstream fetch as an
oracle. Falsy credential: status 400 with the error body, no upstream
contact. Otherwise dispatch `forwardPayload req`; forward a non-ok
upstream status and body, answer 200 with the body on ok, and answer 500
with the synthesized server-error body when the fetch throws. -/
def relayHandler (req : RelayRequest) (upstream : UpstreamCall → UpstreamResponse) :
    RelayResult :=
  if jsFalsyStr req.apiKey then
    { status := 400
      body := Json.obj [("error", Json.str "API key is required")]
      upstreamCall := none }
  else
    let call := forwardPayload req
    match upstream call with
    | UpstreamResponse.reply s b =>
      if statusOk s then { status := 200, body := b, upstreamCall := some call }
      else { status := s, body := b, upstreamCall := some call }
    | UpstreamResponse.exn m =>
      { status := 500
        body := Json.obj [("error",
          Json.obj [("message", Json.str m), ("type", Json.str "server_error")])]
        upstreamCall := some call }

/-! ## The client workflow controller (`src/App.jsx`)

The staged analysis functions are modelled as pure transformers on
`AppState`, with the outcome of a `callClaude` dispatch supplied as an
oracle (`RelayOutcome`). `alert` calls are appended to `alerts`; each
fetch actually issued to the relay increments `relayCalls`. -/

/-- JS `String.prototype.trim` whitespace: the characters stripped are
WhiteSpace and LineTerminator code points; the ASCII ones cover every
string a claim exercises. -/
def isJsTrimWs (c : Char) : Bool :=
  c = ' ' || c = '\t' || c = '\n' || c = '\r' || c = '\x0b' || c = '\x0c'

/-- Model of `String.prototype.trim`. -/
def jsTrim (s : String) : String :=
  let l := s.toList.dropWhile isJsTrimWs
  String.mk ((l.reverse.dropWhile isJsTrimWs).reverse)

example : jsTrim "  a b  " = "a b" := by rfl
example : jsTrim "   " = "" := by rfl

/-- A symptom object as the symptom-extraction prompt specifies it and as
`toggleSymptom` inspects it: the `symptom` name the toggle compares,
plus severity and source. -/
structure Symptom where
  symptom : String
  severity : String
  source : String
deriving DecidableEq, Repr

/-- `toggleSymptom` of `App.jsx`: when the confirmed list holds an entry
with the same `symptom` name (JS `find` yields a truthy object), drop
every entry with that name; otherwise append the symptom. -/
def toggleSymptom (x : Symptom) (prev : List Symptom) : List Symptom :=
  if prev.any (fun s => s.symptom == x.symptom) then
    prev.filter (fun s => s.symptom != x.symptom)
  else
    prev ++ [x]

/-- Outcome of the fetch `callClaude` makes to the relay: an ok response
whose first content element has the given text, a non-ok response whose
JSON error body has the given `error.message` field (`none`: field
absent), or a thrown exception with a message. -/
inductive RelayOutcome where
  | ok (text : String) : RelayOutcome
  | httpErr (errMessage : Option String) : RelayOutcome
  | exn (message : String) : RelayOutcome

/-- `callClaude` of `App.jsx`, abstracted over the relay outcome: with an
empty (falsy) key it throws before any fetch; otherwise one fetch is
issued and the function returns the reply text or throws the error
message (on a non-ok status, the `error.message` field of the error
body, or the fixed fallback text when that field is absent). Returns the
thrown-or-returned value and the number of fetches issued. -/
def callClaude (apiKey : String) (relay : RelayOutcome) : Except String String × Nat :=
  if apiKey = "" then
    (Except.error "Please configure your Claude API key first", 0)
  else
    match relay with
    | RelayOutcome.ok t => (Except.ok t, 1)
    | RelayOutcome.httpErr m => (Except.error (m.getD "API request failed"), 1)
    | RelayOutcome.exn m => (Except.error m, 1)

/-- The controller state of `App.jsx` that the staged functions read or
write, plus two effect observations: `alerts` (the `alert` calls made, in
order) and `relayCalls` (fetches issued to the relay). The debug log is
observational only and carries wall-clock timestamps, so it is omitted.
`extractedSymptoms` holds the raw value `JSON.parse` produced (initially
the empty array). -/
structure AppState where
  activeTab : String
  apiKey : String
  pdfText : String
  manualText : String
  loading : Bool
  extractedSymptoms : Json
  confirmedSymptoms : List Symptom
  additionalSymptoms : String
  potentialCauses : Option Json
  solutions : Option Json
  alerts : List String
  relayCalls : Nat

/-- Stand-in for the engine-specific `SyntaxError` message `JSON.parse`
throws on malformed input; no claim observes its text. -/
def jsonSyntaxErrorMsg : String := "Unexpected token in JSON"

/-- `analyzeSymptoms` of `App.jsx` with the relay outcome as an oracle.
Guard: `pdfText || manualText` must trim non-empty, else only an alert.
Then `callClaude`; on a reply, the greedy bracket span is parsed and
stored in `extractedSymptoms`; a missing span throws, and every throw is
caught by the alert. `setLoading(true)` and the `finally
setLoading(false)` leave `loading` false on every call path. The
function never changes `activeTab`. -/
def analyzeSymptoms (relay : RelayOutcome) (st : AppState) : AppState :=
  let medicalData := if st.pdfText = "" then st.manualText else st.pdfText
  if jsTrim medicalData = "" then
    { st with alerts := st.alerts ++ ["Please provide medical data first"] }
  else
    let c := callClaude st.apiKey relay
    let st1 := { st with relayCalls := st.relayCalls + c.2 }
    let st2 :=
      match c.1 with
      | Except.ok response =>
        match greedySpan '[' ']' response with
        | some span =>
          match jsonParse span with
          | some v => { st1 with extractedSymptoms := v }
          | none =>
            { st1 with alerts :=
                st1.alerts ++ ["Failed to analyze symptoms: " ++ jsonSyntaxErrorMsg] }
        | none =>
          { st1 with alerts :=
              st1.alerts ++
                ["Failed to analyze symptoms: Could not parse symptoms from response"] }
      | Except.error m =>
        { st1 with alerts := st1.alerts ++ ["Failed to analyze symptoms: " ++ m] }
    { st2 with loading := false }

/-- `analyzeCauses` of `App.jsx` with the relay outcome as an oracle.
Guard: an empty confirmed list together with blank additional text gives
only an alert, before any loading or fetch. Then `callClaude` (the
prompt built from the confirmed and additional symptoms is not observed
by any claim and is not modelled); on a reply, the greedy brace span is
parsed, stored in `potentialCauses`, and the tab advanced — but when the
reply has no brace span the `if (jsonMatch)` of the code has no else
branch, so nothing at all happens; a parse failure or a `callClaude`
throw is caught by the alert. `loading` ends false on every call path. -/
def analyzeCauses (relay : RelayOutcome) (st : AppState) : AppState :=
  if st.confirmedSymptoms.length = 0 ∧ jsTrim st.additionalSymptoms = "" then
    { st with alerts :=
        st.alerts ++ ["Please confirm at least one symptom or add additional symptoms"] }
  else
    let c := callClaude st.apiKey relay
    let st1 := { st with relayCalls := st.relayCalls + c.2 }
    let st2 :=
      match c.1 with
      | Except.ok response =>
        match greedySpan openBrace closeBrace response with
        | some span =>
          match jsonParse span with
          | some v => { st1 with potentialCauses := some v, activeTab := "causes" }
          | none =>
            { st1 with alerts :=
                st1.alerts ++ ["Failed to analyze causes: " ++ jsonSyntaxErrorMsg] }
        | none => st1
      | Except.error m =>
        { st1 with alerts := st1.alerts ++ ["Failed to analyze causes: " ++ m] }
    { st2 with loading := false }

/-! ## Concrete fixtures used by witnesses and counterexamples -/

/-- A minimal chat message. -/
def wMsg : ChatMessage := { role := "user", content := "hi" }

/-- A relay request whose body has no credential field at all. -/
def reqNoKey : RelayRequest :=
  { apiKey := none, messages := some [wMsg], system := some "sys"
    model := some "m", max_tokens := some 100 }

/-- A relay request whose credential field is present but empty. -/
def reqEmptyKey : RelayRequest := { reqNoKey with apiKey := some "" }

/-- A relay request with a credential and explicit non-falsy fields. -/
def reqWithKey : RelayRequest :=
  { apiKey := some "sk-test", messages := some [wMsg], system := none
    model := some "my-model", max_tokens := some 7 }

/-- A relay request with a credential but a supplied empty model name and
a supplied zero token limit (both falsy in JS). -/
def reqFalsyFields : RelayRequest :=
  { apiKey := some "sk-test", messages := some [wMsg], system := none
    model := some "", max_tokens := some 0 }

/-- An upstream error body of the shape the upstream API sends. -/
def upstreamErrBody : Json :=
  Json.obj [("error", Json.obj [("message", Json.str "invalid x-api-key"),
    ("type", Json.str "authentication_error")])]

/-- An upstream that always answers 401 with `upstreamErrBody`. -/
def upstream401 : UpstreamCall → UpstreamResponse :=
  fun _ => UpstreamResponse.reply 401 upstreamErrBody

/-- An upstream whose fetch always throws. -/
def upstreamBoom : UpstreamCall → UpstreamResponse :=
  fun _ => UpstreamResponse.exn "fetch failed"

/-- An upstream that always answers 200 with a null body. -/
def upstreamOkNull : UpstreamCall → UpstreamResponse :=
  fun _ => UpstreamResponse.reply 200 Json.null

/-- A symptom fixture. -/
def sFatigue : Symptom := { symptom := "Fatigue", severity := "mild", source := "report" }

/-- The initial controller state of `App.jsx` (empty data, upload tab)
with a configured credential. -/
def baseState : AppState :=
  { activeTab := "upload", apiKey := "sk-test", pdfText := "", manualText := ""
    loading := false, extractedSymptoms := Json.arr [], confirmedSymptoms := []
    additionalSymptoms := "", potentialCauses := none, solutions := none
    alerts := [], relayCalls := 0 }

/-- A state on the symptoms stage with one confirmed symptom, ready for
cause analysis. -/
def c5State : AppState :=
  { baseState with activeTab := "symptoms", confirmedSymptoms := [sFatigue] }

/-- A model reply that contains no brace-delimited object. -/
def c5Reply : String := "I cannot determine the causes from these symptoms."

/-- A state on the upload tab with pasted (manual) medical text, the
scenario input of spec section 8. -/
def c9State : AppState := { baseState with manualText := "Hemoglobin: 8.2 g/dL (low)" }

/-- The mocked upstream reply of the spec section 8 scenario. -/
def c9Reply : String :=
  "[\x7b\"symptom\":\"Low hemoglobin\",\"severity\":\"moderate\",\"source\":\"Hemoglobin: 8.2 g/dL\"\x7d]"

/-- The JSON value embedded in `c9Reply`. -/
def c9Parsed : Json :=
  Json.arr [Json.obj [("symptom", Json.str "Low hemoglobin"),
    ("severity", Json.str "moderate"), ("source", Json.str "Hemoglobin: 8.2 g/dL")]]

/-- A state on the upload tab with pasted medical text. -/
def c6State : AppState := { baseState with manualText := "blood test data" }

/-- A reply holding two disjoint well-formed JSON arrays, so the greedy
span (first `[` to last `]`) is not itself valid JSON. -/
def c6Reply : String := "[1] and separately [2]"

/-- A reply with exactly one embedded JSON array. -/
def c6wReply : String := "Here it is: [\"a\", 2] as requested."

/-! ## Claim theorems -/

/-- Claim C1: a relay request whose body lacks the credential field is
answered with HTTP status 400 and the JSON error body, and the upstream
LLM API is not contacted — the result records no upstream call and is
the same for every upstream. -/
theorem relay_missing_credential (req : RelayRequest)
    (upstream : UpstreamCall → UpstreamResponse) (h : req.apiKey = none) :
    relayHandler req upstream =
      { status := 400
        body := Json.obj [("error", Json.str "API key is required")]
        upstreamCall := none } := by
  simp [relayHandler, jsFalsyStr, h]

/-- Claim C1 witness: the 400 answer at a concrete credential-less request
against a live upstream. -/
theorem relay_missing_credential_check :
    relayHandler reqNoKey upstream401 =
      { status := 400
        body := Json.obj [("error", Json.str "API key is required")]
        upstreamCall := none } :=
  relay_missing_credential reqNoKey upstream401 rfl

/-- Claim C10: a relay request whose credential field is present but equal
to the empty string is treated as missing — the truthiness check rejects
it with status 400 and the upstream API is not contacted. -/
theorem relay_empty_credential (req : RelayRequest)
    (upstream : UpstreamCall → UpstreamResponse) (h : req.apiKey = some "") :
    relayHandler req upstream =
      { status := 400
        body := Json.obj [("error", Json.str "API key is required")]
        upstreamCall := none } := by
  simp [relayHandler, jsFalsyStr, h]

/-- Claim C10 witness: the 400 answer at a concrete request carrying an
empty credential. -/
theorem relay_empty_credential_check :
    relayHandler reqEmptyKey upstream401 =
      { status := 400
        body := Json.obj [("error", Json.str "API key is required")]
        upstreamCall := none } :=
  relay_empty_credential reqEmptyKey upstream401 rfl

/-- Claim C2: with a credential present, when the upstream call completes
with a non-success status, the relay answers with exactly that status
code and the upstream body unmodified. -/
theorem relay_forwards_upstream_error (req : RelayRequest)
    (upstream : UpstreamCall → UpstreamResponse) (s : Nat) (b : Json)
    (hkey : jsFalsyStr req.apiKey = false)
    (hup : upstream (forwardPayload req) = UpstreamResponse.reply s b)
    (hbad : statusOk s = false) :
    relayHandler req upstream =
      { status := s, body := b, upstreamCall := some (forwardPayload req) } := by
  simp [relayHandler, hkey, hup, hbad]

/-- Claim C2 witness: a concrete request relayed to an upstream that
answers 401 comes back as 401 with the upstream error body. -/
theorem relay_forwards_upstream_error_check :
    relayHandler reqWithKey upstream401 =
      { status := 401, body := upstreamErrBody
        upstreamCall := some (forwardPayload reqWithKey) } :=
  relay_forwards_upstream_error reqWithKey upstream401 401 upstreamErrBody rfl rfl rfl

/-- Claim C4: when the upstream fetch throws a local exception, the relay
does not propagate it — it answers status 500 with the synthesized body
carrying the exception message under `error.message` and the fixed
`server_error` type. -/
theorem relay_local_exception_contained (req : RelayRequest)
    (upstream : UpstreamCall → UpstreamResponse) (m : String)
    (hkey : jsFalsyStr req.apiKey = false)
    (hup : upstream (forwardPayload req) = UpstreamResponse.exn m) :
    relayHandler req upstream =
      { status := 500
        body := Json.obj [("error",
          Json.obj [("message", Json.str m), ("type", Json.str "server_error")])]
        upstreamCall := some (forwardPayload req) } := by
  simp [relayHandler, hkey, hup]

/-- Claim C4 witness: a concrete request against an upstream whose fetch
throws comes back as a 500 with the synthesized server-error body. -/
theorem relay_local_exception_contained_check :
    relayHandler reqWithKey upstreamBoom =
      { status := 500
        body := Json.obj [("error",
          Json.obj [("message", Json.str "fetch failed"), ("type", Json.str "server_error")])]
        upstreamCall := some (forwardPayload reqWithKey) } :=
  relay_local_exception_contained reqWithKey upstreamBoom "fetch failed" rfl rfl

/-- Claim C3 counterexample: a request that supplies the model identifier
as the empty string and the token limit as zero is forwarded with the
default model name and the default limit 4096 — not with the supplied
values — so the claim that the forwarded payload carries the supplied
model and limit whenever they are supplied is false. -/
theorem relay_supplied_falsy_fields_counterexample :
    reqFalsyFields.model = some ""
    ∧ reqFalsyFields.max_tokens = some 0
    ∧ (relayHandler reqFalsyFields upstreamOkNull).upstreamCall =
        some (forwardPayload reqFalsyFields)
    ∧ (forwardPayload reqFalsyFields).model = defaultModel
    ∧ (forwardPayload reqFalsyFields).max_tokens = 4096
    ∧ defaultModel ≠ ""
    ∧ (4096 : Int) ≠ 0 :=
  ⟨rfl, rfl, rfl, rfl, rfl, by decide, by decide⟩

/-- Claim C3 (amended): with a truthy credential the relay dispatches
exactly `forwardPayload req` upstream; the forwarded payload carries the
supplied model and token limit when they are truthy (non-empty string,
nonzero integer), substitutes the default model name and 4096 when they
are omitted or falsy, and carries the credential in the `x-api-key`
header and the protocol version header `anthropic-version`. -/
theorem relay_forwarded_payload_fields (req : RelayRequest)
    (upstream : UpstreamCall → UpstreamResponse) (k : String)
    (hkey : req.apiKey = some k) (hk : k ≠ "") :
    (relayHandler req upstream).upstreamCall = some (forwardPayload req)
    ∧ (∀ m, req.model = some m → m ≠ "" → (forwardPayload req).model = m)
    ∧ ((req.model = none ∨ req.model = some "") → (forwardPayload req).model = defaultModel)
    ∧ (∀ n, req.max_tokens = some n → n ≠ 0 → (forwardPayload req).max_tokens = n)
    ∧ ((req.max_tokens = none ∨ req.max_tokens = some 0) →
        (forwardPayload req).max_tokens = 4096)
    ∧ (forwardPayload req).xApiKey = k
    ∧ (forwardPayload req).anthropicVersion = "2023-06-01"
    ∧ (forwardPayload req).contentType = "application/json" := by
  have hfalsy : jsFalsyStr req.apiKey = false := by simp [jsFalsyStr, hkey, hk]
  refine ⟨?_, ?_, ?_, ?_, ?_, ?_, ?_, ?_⟩
  · rw [relayHandler, if_neg (by simp [hfalsy])]
    cases hu : upstream (forwardPayload req) with
    | reply s b => by_cases hs : statusOk s <;> simp [hu, hs]
    | exn m => simp [hu]
  · intro m hm hm1
    simp [forwardPayload, hm, hm1]
  · rintro (h | h) <;> simp [forwardPayload, h]
  · intro n hn hn1
    simp [forwardPayload, hn, hn1]
  · rintro (h | h) <;> simp [forwardPayload, h]
  · simp [forwardPayload, hkey]
  · rfl
  · rfl

/-- Claim C3 witness: the forwarded payload at a concrete request with a
supplied model and limit carries those values and both headers. -/
theorem relay_forwarded_payload_fields_check :
    (relayHandler reqWithKey upstream401).upstreamCall = some (forwardPayload reqWithKey)
    ∧ (forwardPayload reqWithKey).model = "my-model"
    ∧ (forwardPayload reqWithKey).max_tokens = 7
    ∧ (forwardPayload reqWithKey).xApiKey = "sk-test"
    ∧ (forwardPayload reqWithKey).anthropicVersion = "2023-06-01" := by
  have h := relay_forwarded_payload_fields reqWithKey upstream401 "sk-test" rfl (by decide)
  exact ⟨h.1, h.2.1 "my-model" rfl (by decide), h.2.2.2.1 7 rfl (by decide),
    h.2.2.2.2.2.1, h.2.2.2.2.2.2.1⟩

/-- Claim C5: at a concrete cause-analysis call (one confirmed symptom,
symptoms stage) whose reply contains no brace-delimited object, the
causes stay unset and the stage stays put — but no alert is produced,
although the claim and spec section 8 require a user-visible failure:
the `if (jsonMatch)` in `analyzeCauses` has no else branch, unlike the
sibling `analyzeSymptoms`, so the call completes silently. -/
theorem analyzeCauses_missing_span_silent :
    (analyzeCauses (RelayOutcome.ok c5Reply) c5State).potentialCauses = none
    ∧ (analyzeCauses (RelayOutcome.ok c5Reply) c5State).activeTab = "symptoms"
    ∧ (analyzeCauses (RelayOutcome.ok c5Reply) c5State).alerts = []
    ∧ greedySpan openBrace closeBrace c5Reply = none :=
  ⟨rfl, rfl, rfl, rfl⟩

/-- Claim C8: when the confirmed-symptom set is empty and the additional
text is blank, `analyzeCauses` only alerts: the whole resulting state is
the input state with the alert appended, so no relay fetch happens and
every workflow field is unchanged. -/
theorem analyzeCauses_empty_inputs_guard (relay : RelayOutcome) (st : AppState)
    (hc : st.confirmedSymptoms.length = 0) (ha : jsTrim st.additionalSymptoms = "") :
    analyzeCauses relay st =
      { st with alerts :=
          st.alerts ++ ["Please confirm at least one symptom or add additional symptoms"] } := by
  simp [analyzeCauses, hc, ha]

/-- Claim C8 witness: the guard at the initial state with an ok upstream
reply available — the reply is never fetched. -/
theorem analyzeCauses_empty_inputs_guard_check :
    analyzeCauses (RelayOutcome.ok "\x7b\"causes\":[]\x7d") baseState =
      { baseState with
        alerts := ["Please confirm at least one symptom or add additional symptoms"] } :=
  analyzeCauses_empty_inputs_guard (RelayOutcome.ok "\x7b\"causes\":[]\x7d") baseState rfl rfl

/-- Claim C9: at the spec section 8 scenario input — pasted text present,
upload stage, reply carrying the symptom array — `analyzeSymptoms` does
populate the extracted-symptom set with the parsed structure and does
fetch the relay once, but the active stage stays `upload`: the function
never calls `setActiveTab`, so the pasted-text path does not
auto-advance as the claim and spec section 4.2 state. -/
theorem analyzeSymptoms_populates_without_advance :
    (analyzeSymptoms (RelayOutcome.ok c9Reply) c9State).extractedSymptoms = c9Parsed
    ∧ (analyzeSymptoms (RelayOutcome.ok c9Reply) c9State).activeTab = "upload"
    ∧ (analyzeSymptoms (RelayOutcome.ok c9Reply) c9State).relayCalls = 1 :=
  ⟨rfl, rfl, rfl⟩

/-- Claim C6 counterexample: the reply `[1] and separately [2]` contains
the well-formed bracket-delimited span `[1]` holding valid JSON (its
first three characters), yet the call fails — the greedy regex takes the
span from the first `[` to the last `]`, which is not valid JSON, so the
extracted set is left at the empty array and a failure alert fires
instead of the span becoming the extracted-symptom set. -/
theorem analyzeSymptoms_inner_span_counterexample :
    String.take c6Reply 3 = "[1]"
    ∧ jsonParse "[1]" = some (Json.arr [Json.num "1"])
    ∧ greedySpan '[' ']' c6Reply = some "[1] and separately [2]"
    ∧ (analyzeSymptoms (RelayOutcome.ok c6Reply) c6State).extractedSymptoms = Json.arr []
    ∧ (analyzeSymptoms (RelayOutcome.ok c6Reply) c6State).alerts =
        ["Failed to analyze symptoms: " ++ jsonSyntaxErrorMsg] :=
  ⟨rfl, rfl, rfl, rfl, rfl⟩

/-- Claim C6 (amended): for a symptom-extraction reply, when the span the
extraction rule matches — from the first opening bracket to the last
closing bracket — holds valid JSON, parsing yields exactly that
structure and it becomes the extracted-symptom set; when the reply
contains no bracket-delimited span, the call fails deterministically
without an uncaught throw: the extracted set and stage are unchanged and
the failure alert is shown. -/
theorem analyzeSymptoms_parse_contract (st : AppState) (reply : String)
    (hkey : st.apiKey ≠ "")
    (hdata : jsTrim (if st.pdfText = "" then st.manualText else st.pdfText) ≠ "") :
    (∀ span v, greedySpan '[' ']' reply = some span → jsonParse span = some v →
      (analyzeSymptoms (RelayOutcome.ok reply) st).extractedSymptoms = v)
    ∧ (greedySpan '[' ']' reply = none →
      (analyzeSymptoms (RelayOutcome.ok reply) st).extractedSymptoms = st.extractedSymptoms
      ∧ (analyzeSymptoms (RelayOutcome.ok reply) st).alerts =
          st.alerts ++ ["Failed to analyze symptoms: Could not parse symptoms from response"]
      ∧ (analyzeSymptoms (RelayOutcome.ok reply) st).activeTab = st.activeTab) := by
  constructor
  · intro span v hspan hv
    simp [analyzeSymptoms, callClaude, hkey, hdata, hspan, hv]
  · intro hspan
    refine ⟨?_, ?_, ?_⟩ <;> simp [analyzeSymptoms, callClaude, hkey, hdata, hspan]

/-- Claim C6 witness: a reply with a single embedded array populates the
extracted set with its parse; a reply with no bracket span leaves the
extracted set unchanged. -/
theorem analyzeSymptoms_parse_contract_check :
    (analyzeSymptoms (RelayOutcome.ok c6wReply) c6State).extractedSymptoms =
      Json.arr [Json.str "a", Json.num "2"]
    ∧ (analyzeSymptoms (RelayOutcome.ok "no span here") c6State).extractedSymptoms =
        c6State.extractedSymptoms := by
  refine ⟨(analyzeSymptoms_parse_contract c6State c6wReply (by decide) (by decide)).1
      "[\"a\", 2]" (Json.arr [Json.str "a", Json.num "2"]) rfl rfl,
    ((analyzeSymptoms_parse_contract c6State "no span here" (by decide) (by decide)).2 rfl).1⟩

/-- Auxiliary: after every entry with the name of `x` is filtered out, no
entry with that name is found. -/
theorem any_name_filter_ne (x : Symptom) (l : List Symptom) :
    (l.filter (fun s => s.symptom != x.symptom)).any (fun s => s.symptom == x.symptom) =
      false := by
  induction l with
  | nil => rfl
  | cons a t ih =>
    by_cases h : a.symptom = x.symptom <;>
      simp [List.filter_cons, List.any_cons, bne, h, ih]

/-- Claim C7 counterexample: for a symptom already in the confirmed set,
toggling it twice leaves it confirmed — the first toggle removes it and
the second puts it back — so the claim that a double toggle always ends
with the symptom not confirmed is false. -/
theorem toggleSymptom_twice_counterexample :
    (toggleSymptom sFatigue (toggleSymptom sFatigue [sFatigue])).any
      (fun s => s.symptom == sFatigue.symptom) = true := rfl

/-- Claim C7 (amended): toggling a symptom twice in succession restores
its membership status in the confirmed set, membership decided by
symptom name — the toggle is an involution on membership; in particular
a symptom not confirmed before the double toggle is not confirmed after
it. -/
theorem toggleSymptom_twice_membership (x : Symptom) (prev : List Symptom) :
    (toggleSymptom x (toggleSymptom x prev)).any (fun s => s.symptom == x.symptom) =
      prev.any (fun s => s.symptom == x.symptom) := by
  cases h : prev.any (fun s => s.symptom == x.symptom) with
  | true =>
    simp [toggleSymptom, h, any_name_filter_ne, List.any_append]
  | false =>
    simp [toggleSymptom, h, any_name_filter_ne, List.any_append, List.filter_append, bne]
